import Mathlib

/-!
Verification of the federated-learning client `fltk/client.py` of
tudelft-eemcs-dml/fltk-testbed-gr-30, via a shallow embedding in Lean 4.

The tensor engine (forward/backward pass, SGD) is external to the
repository; the embedding models the client's own control flow, state
machine, loss-reporting arithmetic and metric arithmetic faithfully,
treating the numeric outcomes of a training or evaluation pass as
parameters (oracles) where the source delegates them to the library.
-/

namespace FLTK

/-- Compute target of a tensor, as distinguished by `torch.device`. -/
inductive Device where
  | cpu
  | cuda
deriving DecidableEq, Repr

/-- Shallow model of a torch tensor: an abstract payload together with the
two attributes the client code manipulates, the device the tensor resides
on and whether it is attached to an autograd computation graph. -/
structure Tensor where
  payload : ℤ
  device : Device
  onGraph : Bool
deriving DecidableEq, Repr

/-- `t.cpu()`: move the tensor to host memory; graph attachment is kept. -/
def Tensor.toCpu (t : Tensor) : Tensor :=
  { t with device := Device.cpu }

/-- `t.detach()`: strip the tensor from the computation graph; the device
is kept. -/
def Tensor.detach (t : Tensor) : Tensor :=
  { t with onGraph := false }

/-- A model state dict: an ordered mapping from parameter name to tensor
(`ModelWeights` in the spec). -/
abbrev ModelWeights : Type := List (String × Tensor)

/-- The dataset handle built by `self.args.DistDatasets[...](args, pill)`.
Only the attributes the client code reads are modelled: the length of the
train sampler (`len(self.dataset.get_train_sampler())`). -/
structure Dataset where
  sampler_len : ℕ
deriving DecidableEq, Repr

/-- The mutable state of a `Client` instance: the attributes
`finished_init`, `dataset`, `epoch_counter` (class attributes in the
source, initially `False`, `None`, `0`) plus the network weights and the
client id used in result records. -/
structure ClientState where
  finished_init : Bool
  dataset : Option Dataset
  epoch_counter : ℕ
  net : ModelWeights
  id : String

/-- A freshly constructed client: the class attributes of `Client` give
`finished_init = False`, `dataset = None`, `epoch_counter = 0`. -/
def freshClient (id : String) (net : ModelWeights) : ClientState :=
  { finished_init := false, dataset := none, epoch_counter := 0,
    net := net, id := id }

/-- `Client.is_ready`: returns `self.finished_init`. -/
def is_ready (c : ClientState) : Bool :=
  c.finished_init

/-- `Client.init_dataloader(pill)`: the dataset construction
`self.args.DistDatasets[self.args.dataset_name](self.args, pill)` is run
inside `try`; an exception is caught and its traceback printed, leaving
`self.dataset` unchanged.  `self.finished_init = True` stands after the
`try`/`except` block and so runs unconditionally.  The outcome of the
external dataset construction is passed in as `constructed`. -/
def init_dataloader (c : ClientState) (constructed : Except String Dataset) :
    ClientState :=
  match constructed with
  | Except.ok d => { c with dataset := some d, finished_init := true }
  | Except.error _ => { c with finished_init := true }

/-- `Client.reset_model`: resets `epoch_counter` to 0, `finished_init` to
`False`, deletes the dataset (falling back to the class attribute `None`)
and rebuilds the network from the default model. -/
def reset_model (c : ClientState) (defaultNet : ModelWeights) : ClientState :=
  { c with epoch_counter := 0, finished_init := false,
           dataset := none, net := defaultNet }

/-- `Client.get_client_datasize` returns either `len(train_sampler)` or
the Python boolean `False`; the two Python result shapes are the two
constructors. -/
inductive DatasizeResult where
  | pyFalse
  | size (n : ℕ)
deriving DecidableEq, Repr

/-- `Client.get_client_datasize`: `len(self.dataset.get_train_sampler())`
when `self.dataset is not None`, else the boolean `False`. -/
def get_client_datasize (c : ClientState) : DatasizeResult :=
  match c.dataset with
  | some d => DatasizeResult.size d.sampler_len
  | none => DatasizeResult.pyFalse

/-- Modelled from the spec: the `EpochData` record of
`fltk.util.results` is not under `src/`; per the spec it is "an immutable
result record per round: round index, train duration (ms), test duration
(ms), training loss, test accuracy, test loss, per-class precision,
per-class recall, owning client id", and the source constructs it as
`EpochData(self.epoch_counter, train_time_ms, test_time_ms, loss,
accuracy, test_loss, class_precision, class_recall, client_id=self.id)`,
the first positional argument being the round field. -/
structure EpochData where
  round : ℕ
  train_time_ms : ℤ
  test_time_ms : ℤ
  loss : ℚ
  accuracy : ℚ
  test_loss : ℚ
  class_precision : List ℚ
  class_recall : List ℚ
  client_id : String

/-- Outcome of the local training pass `self.train(...)`: the reported
loss and the state dict `self.get_nn_parameters()` it returns.  The
numeric content is produced by the external tensor engine, so the
embedding takes it as a parameter of `run_epochs`. -/
structure TrainOutcome where
  loss : ℚ
  weights : ModelWeights

/-- Outcome of the evaluation pass `self.test()`: accuracy, cumulative
loss, per-class precision and recall. -/
structure TestOutcome where
  accuracy : ℚ
  test_loss : ℚ
  class_precision : List ℚ
  class_recall : List ℚ

/-- `Client.run_epochs(num_epoch, pill)`.  The method first sets
`self.finished_init = False`, then calls
`self.dataset.get_train_sampler().set_epoch_size(num_epoch)` (an
`AttributeError` on a `None` dataset, modelled by the `none` branch
returning no payload), trains, adds `num_epoch` to `self.epoch_counter`,
evaluates, builds the `EpochData` from the incremented counter, and
returns it with the trained weights after replacing every tensor `v` of
the state dict by `v.cpu().detach()`.  Training and evaluation outcomes
and the measured wall-clock times are parameters.  The updated client
state is returned alongside the Python return value. -/
def run_epochs (c : ClientState) (num_epoch : ℕ)
    (tr : TrainOutcome) (te : TestOutcome) (train_ms test_ms : ℤ) :
    ClientState × Option (EpochData × ModelWeights) :=
  let c1 : ClientState := { c with finished_init := false }
  match c.dataset with
  | none => (c1, none)
  | some _ =>
      let c2 : ClientState :=
        { c1 with epoch_counter := c1.epoch_counter + num_epoch,
                  net := tr.weights }
      let data : EpochData :=
        { round := c2.epoch_counter, train_time_ms := train_ms,
          test_time_ms := test_ms, loss := tr.loss,
          accuracy := te.accuracy, test_loss := te.test_loss,
          class_precision := te.class_precision,
          class_recall := te.class_recall, client_id := c.id }
      let outWeights : ModelWeights :=
        tr.weights.map (fun kv => (kv.1, kv.2.toCpu.detach))
      (c2, some (data, outWeights))

end FLTK

namespace FLTK

/-- Concrete states used by witnesses and counterexamples. -/
def sampleTensor : Tensor :=
  { payload := 7, device := Device.cuda, onGraph := true }

def sampleClient : ClientState :=
  { finished_init := false, dataset := none, epoch_counter := 0,
    net := [("w", sampleTensor)], id := "c0" }

def sampleDataset : Dataset :=
  { sampler_len := 42 }

def readyClient : ClientState :=
  { finished_init := true, dataset := some sampleDataset,
    epoch_counter := 5, net := [("w", sampleTensor)], id := "c0" }

def sampleTrain : TrainOutcome :=
  { loss := 3/2, weights := [("w", sampleTensor), ("b", sampleTensor)] }

def sampleTest : TestOutcome :=
  { accuracy := 85, test_loss := 2, class_precision := [8/9, 9/11],
    class_recall := [4/5, 9/10] }

end FLTK

namespace FLTK

/-- C1, counterexample: on a client whose dataset construction fails,
`init_dataloader` still sets the ready flag, so `is_ready` returns `true`
immediately afterwards — refuting the claim that after a failed
construction the flag is never set and `is_ready` stays `false`. -/
theorem C1_cex_failed_init_reports_ready :
    is_ready (init_dataloader sampleClient (Except.error "dataset construction raised")) = true := by
  rfl

/-- C1, amended: a failure during dataset construction inside
`init_dataloader` is caught (the call still returns a client state, with
the dataset attribute unchanged), but `finished_init = True` runs
unconditionally after the `try` block, so after any `init_dataloader`
call — successful or failed — `is_ready` returns `true`; the flag is
cleared again only by `reset_model` (or `run_epochs`). -/
theorem C1_init_dataloader_always_sets_ready (c : ClientState)
    (r : Except String Dataset) :
    is_ready (init_dataloader c r) = true ∧
    (∀ e : String, r = Except.error e → (init_dataloader c r).dataset = c.dataset) ∧
    (∀ d : ModelWeights, is_ready (reset_model c d) = false) := by
  refine ⟨?_, ?_, ?_⟩
  · cases r <;> rfl
  · intro e he
    subst he
    rfl
  · intro d
    rfl

/-- C1 witness: the amended theorem instantiated at a concrete client and
a concrete failed construction. -/
theorem C1_witness :
    is_ready (init_dataloader sampleClient (Except.error "boom")) = true ∧
    (∀ e : String, (Except.error "boom" : Except String Dataset) = Except.error e →
      (init_dataloader sampleClient (Except.error "boom")).dataset = sampleClient.dataset) ∧
    (∀ d : ModelWeights, is_ready (reset_model sampleClient d) = false) :=
  C1_init_dataloader_always_sets_ready sampleClient (Except.error "boom")

/-- C2: on a client with an initialized dataset, `run_epochs` returns an
`EpochData` whose `round` field equals the pre-call `epoch_counter` plus
`num_epoch`, and the post-call `epoch_counter` equals that same value. -/
theorem C2_run_epochs_round_counter (c : ClientState) (d : Dataset)
    (num_epoch : ℕ) (tr : TrainOutcome) (te : TestOutcome)
    (train_ms test_ms : ℤ) (h : c.dataset = some d) :
    ∃ data w,
      (run_epochs c num_epoch tr te train_ms test_ms).2 = some (data, w) ∧
      data.round = c.epoch_counter + num_epoch ∧
      (run_epochs c num_epoch tr te train_ms test_ms).1.epoch_counter =
        c.epoch_counter + num_epoch := by
  simp only [run_epochs, h]
  refine ⟨_, _, rfl, ?_, ?_⟩ <;> simp

/-- C2 witness: the theorem at a concrete ready client, three epochs. -/
theorem C2_witness :
    ∃ data w,
      (run_epochs readyClient 3 sampleTrain sampleTest 10 4).2 = some (data, w) ∧
      data.round = readyClient.epoch_counter + 3 ∧
      (run_epochs readyClient 3 sampleTrain sampleTest 10 4).1.epoch_counter =
        readyClient.epoch_counter + 3 :=
  C2_run_epochs_round_counter readyClient sampleDataset 3 sampleTrain sampleTest 10 4 rfl

/-- C5: every tensor of the `ModelWeights` mapping returned by
`run_epochs` has been passed through `.cpu().detach()`: it resides on the
CPU device and is no longer attached to a computation graph. -/
theorem C5_returned_weights_cpu_detached (c : ClientState)
    (num_epoch : ℕ) (tr : TrainOutcome) (te : TestOutcome)
    (train_ms test_ms : ℤ) (data : EpochData) (w : ModelWeights)
    (h : (run_epochs c num_epoch tr te train_ms test_ms).2 = some (data, w)) :
    ∀ kv ∈ w, kv.2.device = Device.cpu ∧ kv.2.onGraph = false := by
  unfold run_epochs at h
  cases hd : c.dataset with
  | none => simp [hd] at h
  | some d =>
      simp only [hd] at h
      injection h with h1
      injection h1 with _ h2
      subst h2
      intro kv hkv
      simp only [List.mem_map] at hkv
      obtain ⟨ab, _, hab⟩ := hkv
      subst hab
      exact ⟨rfl, rfl⟩

/-- C5 witness: the theorem at a concrete client whose pre-training
weights live on a CUDA device and are attached to a graph, evaluated at
the first returned parameter tensor. -/
theorem C5_witness :
    (("w", sampleTensor.toCpu.detach) : String × Tensor).2.device = Device.cpu ∧
    (("w", sampleTensor.toCpu.detach) : String × Tensor).2.onGraph = false :=
  C5_returned_weights_cpu_detached readyClient 3 sampleTrain sampleTest 10 4 _ _ rfl
    ("w", sampleTensor.toCpu.detach) (by decide)

/-- C9: `run_epochs` sets `finished_init` to `False` on entry and never
restores it, so a client that was ready is no longer ready after any
`run_epochs` call completes. -/
theorem C9_run_epochs_clears_ready (c : ClientState)
    (num_epoch : ℕ) (tr : TrainOutcome) (te : TestOutcome)
    (train_ms test_ms : ℤ) (h : is_ready c = true) :
    is_ready (run_epochs c num_epoch tr te train_ms test_ms).1 = false := by
  unfold run_epochs
  cases c.dataset <;> rfl

/-- C9 witness: the theorem at a concrete ready client. -/
theorem C9_witness :
    is_ready (run_epochs readyClient 2 sampleTrain sampleTest 1 1).1 = false :=
  C9_run_epochs_clears_ready readyClient 2 sampleTrain sampleTest 1 1 rfl

/-- C10: with an uninitialized dataset `get_client_datasize` returns the
Python boolean `False` (not a number and not an error); with an
initialized dataset it returns the length of the train sampler. -/
theorem C10_datasize_false_or_len (c : ClientState) :
    (c.dataset = none → get_client_datasize c = DatasizeResult.pyFalse) ∧
    (∀ d : Dataset, c.dataset = some d →
      get_client_datasize c = DatasizeResult.size d.sampler_len) := by
  constructor
  · intro h
    simp [get_client_datasize, h]
  · intro d h
    simp [get_client_datasize, h]

/-- C10 witness: both branches of the theorem, discharged at concrete
clients (an uninitialized one and a ready one). -/
theorem C10_witness :
    get_client_datasize sampleClient = DatasizeResult.pyFalse ∧
    get_client_datasize readyClient = DatasizeResult.size sampleDataset.sampler_len :=
  ⟨(C10_datasize_false_or_len sampleClient).1 rfl,
   (C10_datasize_false_or_len readyClient).2 sampleDataset rfl⟩

end FLTK

namespace FLTK

section Poison

variable {I L : Type}

/-- The poison pill of `fltk.util.poison.poisonpill`, as used by
`Client.train`: two batch-transform hooks, `poison_input` over the input
batch and `poison_output` over the (input, label) pair. -/
structure PoisonPill (I L : Type) where
  poison_input : I → I
  poison_output : I → L → I × L

/-- The per-batch transformation of `Client.train`: when a pill is
supplied, `inputs = pill.poison_input(inputs)` and then
`inputs, labels = pill.poison_output(inputs, labels)`; with no pill the
batch is used as is.  The result is the (input, label) pair fed to the
forward pass `self.net(inputs)` and loss `self.loss_function(outputs,
labels)`. -/
def trainBatchPoison (pill : Option (PoisonPill I L)) (b : I × L) : I × L :=
  match pill with
  | none => b
  | some p =>
      let inputs := p.poison_input b.1
      p.poison_output inputs b.2

/-- The sequence of (input, label) pairs `Client.train` feeds to the
network over one pass of the train loader. -/
def trainForwardStream (pill : Option (PoisonPill I L)) (batches : List (I × L)) :
    List (I × L) :=
  batches.map (trainBatchPoison pill)

/-- The sequence of (image, label) pairs `Client.test` feeds to the
network over one pass of the test loader: the loop body uses the batch
unchanged — `Client.test` takes no pill and applies no hook. -/
def testForwardStream (batches : List (I × L)) : List (I × L) :=
  batches.map (fun b => b)

end Poison

/-- C4: with a pill supplied, every training batch is transformed by
`poison_input` first and its output is fed to `poison_output`, in that
order; in evaluation every batch reaches the network unchanged (no hook
is applied); and with no pill supplied training batches are unchanged
too. -/
theorem C4_pill_hook_order {I L : Type} (p : PoisonPill I L)
    (batches : List (I × L)) :
    trainForwardStream (some p) batches =
      batches.map (fun b => p.poison_output (p.poison_input b.1) b.2) ∧
    testForwardStream batches = batches ∧
    trainForwardStream (none : Option (PoisonPill I L)) batches = batches := by
  refine ⟨rfl, ?_, ?_⟩
  · simp [testForwardStream]
  · have hnone : ∀ b : I × L, trainBatchPoison (none : Option (PoisonPill I L)) b = b :=
      fun b => rfl
    show batches.map (trainBatchPoison (none : Option (PoisonPill I L))) = batches
    rw [funext hnone]
    exact List.map_id' batches

end FLTK

namespace FLTK

section TestLoop

variable {I : Type}

/-- `(predicted == labels).sum().item()` for one batch: the number of
positions where the predicted class equals the true label. -/
def countCorrect (predicted labels : List ℕ) : ℕ :=
  (List.zipWith (fun a b => decide (a = b)) predicted labels).count true

/-- One iteration of the `Client.test` loop over the accumulator
`(correct, total)`: `total += labels.size(0)` and
`correct += (predicted == labels).sum().item()` with
`predicted = torch.max(self.net(images).data, 1)`, the argmax of the
network output, taken as the oracle `net_argmax`. -/
def testStep (net_argmax : I → List ℕ) (acc : ℕ × ℕ) (b : I × List ℕ) : ℕ × ℕ :=
  (acc.1 + countCorrect (net_argmax b.1) b.2, acc.2 + b.2.length)

/-- The `(correct, total)` counters after the `Client.test` loop over the
test loader. -/
def testCounts (net_argmax : I → List ℕ) (batches : List (I × List ℕ)) : ℕ × ℕ :=
  batches.foldl (testStep net_argmax) (0, 0)

end TestLoop

/-- `accuracy = 100 * correct / total` in `Client.test`.  In Python the
division raises `ZeroDivisionError` when `total == 0` (it is not
guarded); the raise is modelled by `none`. -/
def test_accuracy (correct total : ℕ) : Option ℚ :=
  if total = 0 then none else some (100 * (correct : ℚ) / (total : ℚ))

/-- Per-batch correct count never exceeds the batch's label count. -/
lemma countCorrect_le (predicted labels : List ℕ) :
    countCorrect predicted labels ≤ labels.length := by
  calc countCorrect predicted labels
      ≤ (List.zipWith (fun a b => decide (a = b)) predicted labels).length :=
        List.count_le_length _ _
    _ ≤ labels.length := by
        rw [List.length_zipWith]
        exact Nat.min_le_right _ _

/-- Loop invariant of the test loop: `correct ≤ total` is preserved. -/
lemma testCounts_fold_le {I : Type} (net_argmax : I → List ℕ)
    (batches : List (I × List ℕ)) :
    ∀ s : ℕ × ℕ, s.1 ≤ s.2 →
      (batches.foldl (testStep net_argmax) s).1 ≤
        (batches.foldl (testStep net_argmax) s).2 := by
  induction batches with
  | nil => intro s hs; exact hs
  | cons b rest ih =>
      intro s hs
      simp only [List.foldl_cons]
      exact ih _ (Nat.add_le_add hs (countCorrect_le _ _))

/-- The correct counter never exceeds the total counter. -/
lemma testCounts_le {I : Type} (net_argmax : I → List ℕ)
    (batches : List (I × List ℕ)) :
    (testCounts net_argmax batches).1 ≤ (testCounts net_argmax batches).2 :=
  testCounts_fold_le net_argmax batches (0, 0) (Nat.le_refl 0)

/-- C6: `Client.test` computes `accuracy = 100 * correct / total`, a
percentage; whenever the test partition yields `total > 0` the accuracy
lies in `[0, 100]` (the loop structure itself guarantees
`correct ≤ total`); and at `total = 0` the unguarded division raises. -/
theorem C6_test_accuracy_bounds {I : Type} (net_argmax : I → List ℕ)
    (batches : List (I × List ℕ))
    (h : 0 < (testCounts net_argmax batches).2) :
    (test_accuracy (testCounts net_argmax batches).1
        (testCounts net_argmax batches).2 =
      some (100 * ((testCounts net_argmax batches).1 : ℚ) /
        ((testCounts net_argmax batches).2 : ℚ)) ∧
      0 ≤ (100 * ((testCounts net_argmax batches).1 : ℚ) /
        ((testCounts net_argmax batches).2 : ℚ)) ∧
      (100 * ((testCounts net_argmax batches).1 : ℚ) /
        ((testCounts net_argmax batches).2 : ℚ)) ≤ 100) ∧
    (∀ c : ℕ, test_accuracy c 0 = none) := by
  refine ⟨⟨?_, ?_, ?_⟩, fun c => rfl⟩
  · rw [test_accuracy, if_neg (Nat.pos_iff_ne_zero.mp h)]
  · positivity
  · have hle : ((testCounts net_argmax batches).1 : ℚ) ≤
        ((testCounts net_argmax batches).2 : ℚ) := by
      exact_mod_cast testCounts_le net_argmax batches
    have ht : (0 : ℚ) < ((testCounts net_argmax batches).2 : ℚ) := by
      exact_mod_cast h
    rw [div_le_iff₀ ht]
    nlinarith

/-- C6 witness: a concrete network predicting `[0, 1]` on every image and
one test batch with labels `[0, 0]` yield `correct = 1`, `total = 2` and
accuracy `50`; the zero-total division is unguarded. -/
theorem C6_witness :
    (test_accuracy (testCounts (fun _ : ℕ => [0, 1]) [(0, [0, 0])]).1
        (testCounts (fun _ : ℕ => [0, 1]) [(0, [0, 0])]).2 =
      some (100 * ((testCounts (fun _ : ℕ => [0, 1]) [(0, [0, 0])]).1 : ℚ) /
        ((testCounts (fun _ : ℕ => [0, 1]) [(0, [0, 0])]).2 : ℚ)) ∧
      0 ≤ (100 * ((testCounts (fun _ : ℕ => [0, 1]) [(0, [0, 0])]).1 : ℚ) /
        ((testCounts (fun _ : ℕ => [0, 1]) [(0, [0, 0])]).2 : ℚ)) ∧
      (100 * ((testCounts (fun _ : ℕ => [0, 1]) [(0, [0, 0])]).1 : ℚ) /
        ((testCounts (fun _ : ℕ => [0, 1]) [(0, [0, 0])]).2 : ℚ)) ≤ 100) ∧
    (∀ c : ℕ, test_accuracy c 0 = none) :=
  C6_test_accuracy_bounds (fun _ : ℕ => [0, 1]) [(0, [0, 0])] (by decide)

end FLTK

namespace FLTK

/-- `Client.calculate_class_precision`:
`np.diagonal(confusion_mat) / np.sum(confusion_mat, axis=0)` — the
diagonal divided element-wise by the column sums (`axis=0` sums over
rows). -/
def calculate_class_precision {n : ℕ} (confusion_mat : Matrix (Fin n) (Fin n) ℚ) :
    Fin n → ℚ :=
  fun i => confusion_mat i i / ∑ j, confusion_mat j i

/-- `Client.calculate_class_recall`:
`np.diagonal(confusion_mat) / np.sum(confusion_mat, axis=1)` — the
diagonal divided element-wise by the row sums (`axis=1` sums over
columns). -/
def calculate_class_recall {n : ℕ} (confusion_mat : Matrix (Fin n) (Fin n) ℚ) :
    Fin n → ℚ :=
  fun i => confusion_mat i i / ∑ j, confusion_mat i j

/-- C7: class precision is the confusion-matrix diagonal over column
sums and class recall the diagonal over row sums; on the 2-class matrix
`[[8,2],[1,9]]` this gives precision `[8/9, 9/11]` and recall
`[8/10, 9/10]`. -/
theorem C7_precision_recall :
    (∀ (n : ℕ) (m : Matrix (Fin n) (Fin n) ℚ) (i : Fin n),
      calculate_class_precision m i = m i i / ∑ j, m j i ∧
      calculate_class_recall m i = m i i / ∑ j, m i j) ∧
    calculate_class_precision (!![8, 2; 1, 9] : Matrix (Fin 2) (Fin 2) ℚ) =
      ![8/9, 9/11] ∧
    calculate_class_recall (!![8, 2; 1, 9] : Matrix (Fin 2) (Fin 2) ℚ) =
      ![8/10, 9/10] := by
  refine ⟨fun n m i => ⟨rfl, rfl⟩, ?_, ?_⟩ <;>
    · funext i
      fin_cases i <;>
        simp [calculate_class_precision, calculate_class_recall,
          Fin.sum_univ_two] <;> norm_num

end FLTK

namespace FLTK

/-- A Python call that either returns a value or raises. -/
inductive PyOutcome (α : Type) where
  | ok (val : α)
  | raised
deriving DecidableEq, Repr

/-- The file-system state `Client.load_model_from_file` interacts with:
whether the model file path exists, the weights stored there, whether
`torch.load(path)` without a map location raises (e.g., CUDA-saved
tensors on a CPU-only host), and whether the CPU-mapped retry raises
too. -/
structure SavedFile where
  present : Bool
  stored : ModelWeights
  directLoadRaises : Bool
  cpuLoadRaises : Bool

/-- `torch.load(path, map_location=torch.device('cpu'))`: the stored
tensors coerced to host memory. -/
def toCpuWeights (w : ModelWeights) : ModelWeights :=
  w.map (fun kv => (kv.1, kv.2.toCpu))

/-- Observable outcome of `Client.load_model_from_file`: the weights of
the returned model, the number of warnings emitted, and the number of
`torch.load` invocations performed. -/
structure LoadTrace where
  model : ModelWeights
  warnings : ℕ
  load_calls : ℕ
deriving DecidableEq, Repr

/-- `Client.load_model_from_file(model_file_path)` (the second, binding
definition, lines 198-218): build `model = model_class()` (fresh,
framework-default initialization, passed as `fresh`); if the path
exists, `model.load_state_dict(torch.load(model_file_path))`, and on any
exception warn and retry once with `map_location=torch.device('cpu')`
(a failure of the retry propagates); if the path does not exist, warn
and return the fresh model. -/
def load_model_from_file (fresh : ModelWeights) (f : SavedFile) :
    PyOutcome LoadTrace :=
  if f.present then
    if f.directLoadRaises then
      if f.cpuLoadRaises then PyOutcome.raised
      else PyOutcome.ok { model := toCpuWeights f.stored, warnings := 1, load_calls := 2 }
    else PyOutcome.ok { model := f.stored, warnings := 0, load_calls := 1 }
  else PyOutcome.ok { model := fresh, warnings := 1, load_calls := 0 }

/-- C8: `load_model_from_file` is best-effort: an existing path with a
clean load returns the stored weights with a single `torch.load` call;
an existing path whose first load raises produces one warning and
exactly one retry (two `torch.load` calls in all) with the data coerced
to host memory — every tensor of the retried result is on the CPU; a
missing path raises nothing, emits a warning and returns the fresh
model with its default initialization. -/
theorem C8_load_model_best_effort (fresh : ModelWeights) (f : SavedFile) :
    (f.present = true → f.directLoadRaises = false →
      load_model_from_file fresh f =
        PyOutcome.ok { model := f.stored, warnings := 0, load_calls := 1 }) ∧
    (f.present = true → f.directLoadRaises = true → f.cpuLoadRaises = false →
      load_model_from_file fresh f =
        PyOutcome.ok { model := toCpuWeights f.stored, warnings := 1, load_calls := 2 } ∧
      ∀ kv ∈ toCpuWeights f.stored, kv.2.device = Device.cpu) ∧
    (f.present = false →
      load_model_from_file fresh f =
        PyOutcome.ok { model := fresh, warnings := 1, load_calls := 0 }) := by
  refine ⟨?_, ?_, ?_⟩
  · intro hp hd
    simp [load_model_from_file, hp, hd]
  · intro hp hd hc
    refine ⟨by simp [load_model_from_file, hp, hd, hc], ?_⟩
    intro kv hkv
    simp only [toCpuWeights, List.mem_map] at hkv
    obtain ⟨ab, _, hab⟩ := hkv
    subst hab
    rfl
  · intro hp
    simp [load_model_from_file, hp]

/-- C8 witness: the three branches of the theorem discharged at concrete
file states sharing one stored CUDA tensor. -/
theorem C8_witness :
    (load_model_from_file [] ⟨true, [("w", sampleTensor)], false, false⟩ =
      PyOutcome.ok { model := [("w", sampleTensor)], warnings := 0, load_calls := 1 }) ∧
    (load_model_from_file [] ⟨true, [("w", sampleTensor)], true, false⟩ =
      PyOutcome.ok
        { model := toCpuWeights [("w", sampleTensor)], warnings := 1, load_calls := 2 } ∧
      ∀ kv ∈ toCpuWeights [("w", sampleTensor)], kv.2.device = Device.cpu) ∧
    (load_model_from_file [("w0", sampleTensor)] ⟨false, [], false, false⟩ =
      PyOutcome.ok { model := [("w0", sampleTensor)], warnings := 1, load_calls := 0 }) :=
  ⟨(C8_load_model_best_effort [] ⟨true, [("w", sampleTensor)], false, false⟩).1 rfl rfl,
   (C8_load_model_best_effort [] ⟨true, [("w", sampleTensor)], true, false⟩).2.1 rfl rfl rfl,
   (C8_load_model_best_effort [("w0", sampleTensor)]
      ⟨false, [], false, false⟩).2.2 rfl⟩

end FLTK

namespace FLTK

/-- One iteration of the loss bookkeeping in the `Client.train` loop,
over the state (batch index `i`, `running_loss`, `final_running_loss`)
with per-batch loss `x` (the value of `float(loss.detach().item())`):
`running_loss += x`, then if `i % log_interval == 0` the code sets
`final_running_loss = running_loss / log_interval` and
`running_loss = 0.0`. -/
def trainLossStep (log_interval : ℕ) (s : ℕ × ℚ × ℚ) (x : ℚ) : ℕ × ℚ × ℚ :=
  let running := s.2.1 + x
  if s.1 % log_interval = 0 then (s.1 + 1, 0, running / (log_interval : ℚ))
  else (s.1 + 1, running, s.2.2)

/-- The loss bookkeeping state after the whole `Client.train` loop, the
per-batch losses of the pass given as `losses`.  `running_loss` and
`final_running_loss` start at `0.0` and `enumerate` starts `i` at 0. -/
def trainLossFold (log_interval : ℕ) (losses : List ℚ) : ℕ × ℚ × ℚ :=
  losses.foldl (trainLossStep log_interval) (0, 0, 0)

/-- The `final_running_loss` value `Client.train` returns for the pass. -/
def train_final_running_loss (log_interval : ℕ) (losses : List ℚ) : ℚ :=
  (trainLossFold log_interval losses).2.2

/-- The largest batch index `j < n` with `j % log_interval == 0` (for
`n = 0` this degenerates to 0). -/
def lastCheckpoint (log_interval n : ℕ) : ℕ :=
  log_interval * ((n - 1) / log_interval)

/-- Follows the spec's words: the reported training loss is the
arithmetic mean over the window of per-batch losses accumulated up to
and including the last checkpoint index (an index `j` with
`j % log_interval == 0`), the window reaching back at most
`log_interval` batches; losses after the last checkpoint are
discarded. -/
def windowedLossSpec (log_interval : ℕ) (losses : List ℚ) : ℚ :=
  if losses.length = 0 then 0
  else
    ((losses.take (lastCheckpoint log_interval losses.length + 1)).drop
      (lastCheckpoint log_interval losses.length + 1 - log_interval)).sum /
      (log_interval : ℚ)

lemma trainLossFold_append (log_interval : ℕ) (ys zs : List ℚ) :
    trainLossFold log_interval (ys ++ zs) =
      zs.foldl (trainLossStep log_interval) (trainLossFold log_interval ys) := by
  simp [trainLossFold, List.foldl_append]

lemma trainLossFold_append_singleton (log_interval : ℕ) (ys : List ℚ) (x : ℚ) :
    trainLossFold log_interval (ys ++ [x]) =
      trainLossStep log_interval (trainLossFold log_interval ys) x := by
  simp [trainLossFold, List.foldl_append]

lemma lastCheckpoint_succ_dvd (L n : ℕ) (h : n % L = 0) :
    lastCheckpoint L (n + 1) = n := by
  unfold lastCheckpoint
  simp only [Nat.add_sub_cancel]
  exact Nat.mul_div_cancel' (Nat.dvd_of_mod_eq_zero h)

lemma lastCheckpoint_succ_not_dvd (L n : ℕ) (hL : 0 < L) (h : n % L ≠ 0) :
    lastCheckpoint L (n + 1) = lastCheckpoint L n := by
  unfold lastCheckpoint
  simp only [Nat.add_sub_cancel]
  congr 1
  have h1 : 1 ≤ n % L := Nat.one_le_iff_ne_zero.mpr h
  have h2 : n % L < L := Nat.mod_lt _ hL
  have h3 : L * (n / L) + n % L = n := Nat.div_add_mod n L
  have h4 : n - 1 = L * (n / L) + (n % L - 1) := by omega
  rw [h4, Nat.mul_add_div hL, Nat.div_eq_of_lt (show n % L - 1 < L by omega),
    Nat.add_zero]

lemma lastCheckpoint_of_dvd_pos (L n : ℕ) (hL : 0 < L) (hn : 1 ≤ n)
    (h : n % L = 0) : L ≤ n ∧ lastCheckpoint L n = n - L := by
  have hd : L ∣ n := Nat.dvd_of_mod_eq_zero h
  refine ⟨Nat.le_of_dvd hn hd, ?_⟩
  obtain ⟨k, hk⟩ := hd
  obtain ⟨k', rfl⟩ : ∃ k', k = k' + 1 := by
    refine ⟨k - 1, ?_⟩
    rcases Nat.eq_zero_or_pos k with h0 | h1
    · subst h0; omega
    · omega
  have hn' : n = L * k' + L := by rw [hk]; ring
  have hm : n - L = L * k' := by rw [hn', Nat.add_sub_cancel]
  have h4 : n - 1 = L * k' + (L - 1) := by omega
  unfold lastCheckpoint
  rw [h4, Nat.mul_add_div hL, Nat.div_eq_of_lt (show L - 1 < L by omega),
    Nat.add_zero, hm]

lemma lastCheckpoint_lt (L n : ℕ) (hn : 1 ≤ n) : lastCheckpoint L n + 1 ≤ n := by
  unfold lastCheckpoint
  have : L * ((n - 1) / L) ≤ n - 1 := by
    rw [Nat.mul_comm]
    exact Nat.div_mul_le_self _ _
  omega

/-- Invariant of the `Client.train` loss loop: after the whole pass the
index equals the batch count, `running_loss` holds the losses since the
last checkpoint, and `final_running_loss` is the windowed average at the
last checkpoint. -/
lemma trainLossFold_spec (L : ℕ) (hL : 0 < L) (losses : List ℚ) :
    trainLossFold L losses =
      (losses.length,
       (losses.drop (lastCheckpoint L losses.length + 1)).sum,
       windowedLossSpec L losses) := by
  induction losses using List.reverseRecOn with
  | nil =>
      simp [trainLossFold, windowedLossSpec, lastCheckpoint]
  | append_singleton ys x ih =>
      rw [trainLossFold_append_singleton, ih]
      have hlen : (ys ++ [x]).length = ys.length + 1 := by simp
      by_cases h : ys.length % L = 0
      · have hstep : trainLossStep L
            (ys.length, (ys.drop (lastCheckpoint L ys.length + 1)).sum,
              windowedLossSpec L ys) x =
            (ys.length + 1, 0,
             ((ys.drop (lastCheckpoint L ys.length + 1)).sum + x) / (L : ℚ)) := by
          simp [trainLossStep, h]
        rw [hstep]
        have hcp : lastCheckpoint L ((ys ++ [x]).length) = ys.length := by
          rw [hlen]
          exact lastCheckpoint_succ_dvd L ys.length h
        simp only [Prod.mk.injEq]
        refine ⟨hlen.symm, ?_, ?_⟩
        · rw [hcp, ← hlen, List.drop_length, List.sum_nil]
        · rw [windowedLossSpec, if_neg (by rw [hlen]; omega), hcp]
          have htake : (ys ++ [x]).take (ys.length + 1) = ys ++ [x] := by
            rw [← hlen]
            exact List.take_length _
          rcases Nat.eq_zero_or_pos ys.length with hn0 | hn1
          · obtain rfl : ys = [] := List.length_eq_zero.mp hn0
            simp [lastCheckpoint, Nat.sub_eq_zero_of_le hL]
          · obtain ⟨hLle, hcpn⟩ := lastCheckpoint_of_dvd_pos L ys.length hL hn1 h
            rw [hcpn, htake, List.drop_append_eq_append_drop,
              Nat.sub_eq_zero_of_le (show ys.length + 1 - L ≤ ys.length by omega),
              List.drop_zero, List.sum_append, List.sum_cons, List.sum_nil,
              show ys.length + 1 - L = ys.length - L + 1 from by omega, add_zero]
      · have hstep : trainLossStep L
            (ys.length, (ys.drop (lastCheckpoint L ys.length + 1)).sum,
              windowedLossSpec L ys) x =
            (ys.length + 1,
             (ys.drop (lastCheckpoint L ys.length + 1)).sum + x,
             windowedLossSpec L ys) := by
          simp [trainLossStep, h]
        rw [hstep]
        have hn1 : 1 ≤ ys.length := by
          rcases Nat.eq_zero_or_pos ys.length with hn0 | hn1
          · exfalso; apply h; rw [hn0]; exact Nat.zero_mod L
          · exact hn1
        have hcp : lastCheckpoint L ((ys ++ [x]).length) = lastCheckpoint L ys.length := by
          rw [hlen]
          exact lastCheckpoint_succ_not_dvd L ys.length hL h
        have hle : lastCheckpoint L ys.length + 1 ≤ ys.length :=
          lastCheckpoint_lt L ys.length hn1
        simp only [Prod.mk.injEq]
        refine ⟨hlen.symm, ?_, ?_⟩
        · rw [hcp, List.drop_append_eq_append_drop,
            Nat.sub_eq_zero_of_le hle, List.drop_zero, List.sum_append,
            List.sum_cons, List.sum_nil, add_zero]
        · unfold windowedLossSpec
          rw [if_neg (show ¬ys.length = 0 by omega),
            if_neg (show ¬(ys ++ [x]).length = 0 by rw [hlen]; omega), hcp]
          congr 1
          rw [List.take_append_eq_append_take,
            Nat.sub_eq_zero_of_le hle, List.take_zero, List.append_nil]

/-- Batches processed at indices that are not checkpoints leave the
reported `final_running_loss` unchanged. -/
lemma trainLossFold_tail_invariant (L : ℕ) (extra : List ℚ) :
    ∀ s : ℕ × ℚ × ℚ, (∀ k, k < extra.length → (s.1 + k) % L ≠ 0) →
      (extra.foldl (trainLossStep L) s).2.2 = s.2.2 := by
  induction extra with
  | nil =>
      intro s _
      rfl
  | cons x rest ih =>
      intro s hs
      have h0 : s.1 % L ≠ 0 := by
        have h1 := hs 0 (by simp)
        simpa using h1
      have hstep : trainLossStep L s x = (s.1 + 1, s.2.1 + x, s.2.2) := by
        simp [trainLossStep, h0]
      simp only [List.foldl_cons, hstep]
      apply ih
      intro k hk
      have h1 := hs (k + 1) (by simp only [List.length_cons]; omega)
      show (s.1 + 1 + k) % L ≠ 0
      rw [show s.1 + 1 + k = s.1 + (k + 1) from by omega]
      exact h1

/-- C3: the training loss `Client.train` returns is the windowed
average at the last checkpoint of the pass — the per-batch loss
accumulator is divided by `log_interval` and reset exactly at batch
indices `i` with `i % log_interval == 0`, the returned value being the
average recorded at the last such index — and any trailing per-batch
losses at non-checkpoint indices appended after the last checkpoint do
not change the returned loss. -/
theorem C3_train_loss_windowed (L : ℕ) (losses extra : List ℚ) (hL : 0 < L)
    (hextra : ∀ k, k < extra.length → (losses.length + k) % L ≠ 0) :
    train_final_running_loss L losses = windowedLossSpec L losses ∧
    train_final_running_loss L (losses ++ extra) =
      train_final_running_loss L losses := by
  constructor
  · unfold train_final_running_loss
    rw [trainLossFold_spec L hL]
  · unfold train_final_running_loss
    rw [trainLossFold_append]
    apply trainLossFold_tail_invariant
    intro k hk
    rw [trainLossFold_spec L hL]
    exact hextra k hk

/-- C3 witness: interval 2 with per-batch losses `[1, 2, 3]` — the
checkpoints are the indices 0 and 2, the returned loss is
`(2 + 3) / 2 = 5/2`, and a trailing batch of loss 10 at index 3 does not
change it. -/
theorem C3_witness :
    train_final_running_loss 2 [1, 2, 3] = windowedLossSpec 2 [1, 2, 3] ∧
    train_final_running_loss 2 ([1, 2, 3] ++ [10]) =
      train_final_running_loss 2 [1, 2, 3] :=
  C3_train_loss_windowed 2 [1, 2, 3] [10] (by decide) (by decide)

end FLTK
